import Mathlib

/-!
Verification of `docker/test-connection.py` (vex repository).

The script probes three local services over HTTP and reports results.
We embed the script shallowly:

  * The environment's answer to one HTTP GET (url, timeout) is an
    `HttpOutcome`: either a response with a status code arrived within the
    timeout, or the request failed at the network level
    (`requests.exceptions.RequestException`) with a detail string.
  * Each probe function is a total Lean function from the environment to
    a `ProbeResult` (the returned dict) together with the list of request
    events it issued.  Totality of these functions reflects that every
    `RequestException` is caught inside the probe.
  * `main` is a function from the environment to the list of console /
    request events it produces, paired with the process exit code
    (`sys.exit(1)` on failure, falling off the end yields 0).
-/

namespace TestConnection

/-- The possible outcomes of one `requests.get(url, timeout=...)` call:
either an HTTP response (with its status code) was received within the
timeout, or the request failed at the network level (connection refused,
DNS failure, timeout expiry, ...) raising a `RequestException` whose
string rendering is `detail`. -/
inductive HttpOutcome where
  | response (statusCode : Nat)
  | netFailure (detail : String)
deriving DecidableEq

/-- The network environment: what one GET to a given url with a given
timeout yields during this run. -/
def Env : Type := String → Nat → HttpOutcome

/-- The dict `{"status": ..., "message": ...}` returned by each probe.
In the Python source both fields are strings. -/
structure ProbeResult where
  status : String
  message : String
deriving DecidableEq

/-- Observable events of the script: an outbound GET request, or a line
printed to the console. -/
inductive Event where
  | get (url : String) (timeout : Nat)
  | consolePrint (line : String)
deriving DecidableEq

/-- Project a request event to its (url, timeout) pair; `none` for prints. -/
def Event.requestOf : Event → Option (String × Nat)
  | .get url timeout => some (url, timeout)
  | .consolePrint _ => none

/-- `pat` occurs as a contiguous substring of `s`. -/
def strContains (s pat : String) : Prop :=
  ∃ pre post : String, s = pre ++ pat ++ post

def chromadbURL : String := "http://localhost:8000/api/v1/heartbeat"

def milvusURL : String := "http://localhost:9091/healthz"

def attuURL : String := "http://localhost:3000"

/-- `test_chromadb_connection` from the source: one GET to the ChromaDB
heartbeat URL with timeout 5; 200 ↦ success, other code ↦ error with the
code in the message, network failure ↦ error with the exception detail.
The second component records the requests issued. -/
def test_chromadb_connection (env : Env) : ProbeResult × List Event :=
  match env chromadbURL 5 with
  | .response code =>
      if code == 200 then
        (⟨"success", "ChromaDB is running and accessible"⟩, [.get chromadbURL 5])
      else
        (⟨"error", "ChromaDB returned status " ++ toString code⟩, [.get chromadbURL 5])
  | .netFailure e =>
      (⟨"error", "Failed to connect to ChromaDB: " ++ e⟩, [.get chromadbURL 5])

/-- `test_milvus_connection` from the source: one GET to the Milvus health
endpoint with timeout 5. -/
def test_milvus_connection (env : Env) : ProbeResult × List Event :=
  match env milvusURL 5 with
  | .response code =>
      if code == 200 then
        (⟨"success", "Milvus is running and accessible"⟩, [.get milvusURL 5])
      else
        (⟨"error", "Milvus returned status " ++ toString code⟩, [.get milvusURL 5])
  | .netFailure e =>
      (⟨"error", "Failed to connect to Milvus: " ++ e⟩, [.get milvusURL 5])

/-- `test_milvus_attu` from the source: one GET to the Attu UI with
timeout 5. -/
def test_milvus_attu (env : Env) : ProbeResult × List Event :=
  match env attuURL 5 with
  | .response code =>
      if code == 200 then
        (⟨"success", "Milvus Attu UI is accessible"⟩, [.get attuURL 5])
      else
        (⟨"error", "Milvus Attu UI returned status " ++ toString code⟩, [.get attuURL 5])
  | .netFailure e =>
      (⟨"error", "Failed to connect to Milvus Attu UI: " ++ e⟩, [.get attuURL 5])

/-- The per-probe result line printed by `main`:
`✅ {message}` when the status is `"success"`, else `❌ {message}`. -/
def glyphLine (r : ProbeResult) : String :=
  if r.status == "success" then "✅ " ++ r.message else "❌ " ++ r.message

/-- The separator line `"=" * 50`. -/
def sepLine : String := String.mk (List.replicate 50 '=')

/-- `main` from the source: runs the three probes in order, printing a
header line before each and a glyph line after each, then aggregates the
three statuses with `all` (logical AND) and prints the summary.  Returns
the event trace and the process exit code (1 via `sys.exit(1)` when some
probe failed, 0 when `main` falls off the end). -/
def main (env : Env) : List Event × Nat :=
  let c := test_chromadb_connection env
  let m := test_milvus_connection env
  let a := test_milvus_attu env
  let all_success :=
    c.1.status == "success" && m.1.status == "success" && a.1.status == "success"
  ([.consolePrint "🔍 Testing Vex Extension Database Connections...",
    .consolePrint sepLine,
    .consolePrint "\n📊 Testing ChromaDB..."]
   ++ c.2 ++ [.consolePrint (glyphLine c.1)]
   ++ [.consolePrint "\n📊 Testing Milvus..."]
   ++ m.2 ++ [.consolePrint (glyphLine m.1)]
   ++ [.consolePrint "\n📊 Testing Milvus Attu UI..."]
   ++ a.2 ++ [.consolePrint (glyphLine a.1)]
   ++ [.consolePrint ("\n" ++ sepLine)]
   ++ (if all_success then
        [.consolePrint "🎉 All database connections successful!",
         .consolePrint "\n📋 Connection Details:",
         .consolePrint "   ChromaDB: http://localhost:8000",
         .consolePrint "   Milvus:   localhost:19530",
         .consolePrint "   Milvus UI: http://localhost:3000",
         .consolePrint "\n🚀 You can now test your Vex extension!"]
      else
        [.consolePrint "⚠️  Some connections failed. Please check your Docker setup."]),
   if all_success then 0 else 1)

/-- The environment in which every request gets an HTTP 200 response. -/
def envAll200 : Env := fun _ _ => .response 200

/-- An environment in which every request fails at the network level with
the given detail string. -/
def envAllDown (detail : String) : Env := fun _ _ => .netFailure detail

/-- An environment in which every request gets a response with the given
status code. -/
def envAllCode (code : Nat) : Env := fun _ _ => .response code

/- ## Helper lemmas -/

theorem strContains_append_left (s t pat : String) (h : strContains s pat) :
    strContains (s ++ t) pat := by
  obtain ⟨p, q, hq⟩ := h
  exact ⟨p, q ++ t, by rw [hq, String.append_assoc, String.append_assoc]⟩

theorem strContains_append_self (s t : String) : strContains (s ++ t) t :=
  ⟨s, "", by rw [String.append_empty]⟩

theorem append_ne_empty (s t : String) (h : s.data ≠ []) : s ++ t ≠ "" := by
  intro he
  apply h
  have hd : s.data ++ t.data = ([] : List Char) := by
    have := congrArg String.data he
    simpa [String.data_append] using this
  exact (List.append_eq_nil.mp hd).1

theorem chromadb_status_iff (env : Env) :
    (test_chromadb_connection env).1.status = "success" ↔
      env chromadbURL 5 = HttpOutcome.response 200 := by
  unfold test_chromadb_connection
  cases h : env chromadbURL 5 with
  | response code =>
      by_cases hc : code = 200
      · subst hc; simp
      · simp [hc]
  | netFailure e => simp

theorem milvus_status_iff (env : Env) :
    (test_milvus_connection env).1.status = "success" ↔
      env milvusURL 5 = HttpOutcome.response 200 := by
  unfold test_milvus_connection
  cases h : env milvusURL 5 with
  | response code =>
      by_cases hc : code = 200
      · subst hc; simp
      · simp [hc]
  | netFailure e => simp

theorem attu_status_iff (env : Env) :
    (test_milvus_attu env).1.status = "success" ↔
      env attuURL 5 = HttpOutcome.response 200 := by
  unfold test_milvus_attu
  cases h : env attuURL 5 with
  | response code =>
      by_cases hc : code = 200
      · subst hc; simp
      · simp [hc]
  | netFailure e => simp

theorem chromadb_status_cases (env : Env) :
    (test_chromadb_connection env).1.status = "success" ∨
      (test_chromadb_connection env).1.status = "error" := by
  unfold test_chromadb_connection
  cases env chromadbURL 5 with
  | response code =>
      by_cases hc : code = 200
      · subst hc; simp
      · simp [hc]
  | netFailure e => simp

theorem milvus_status_cases (env : Env) :
    (test_milvus_connection env).1.status = "success" ∨
      (test_milvus_connection env).1.status = "error" := by
  unfold test_milvus_connection
  cases env milvusURL 5 with
  | response code =>
      by_cases hc : code = 200
      · subst hc; simp
      · simp [hc]
  | netFailure e => simp

theorem attu_status_cases (env : Env) :
    (test_milvus_attu env).1.status = "success" ∨
      (test_milvus_attu env).1.status = "error" := by
  unfold test_milvus_attu
  cases env attuURL 5 with
  | response code =>
      by_cases hc : code = 200
      · subst hc; simp
      · simp [hc]
  | netFailure e => simp

theorem chromadb_requests (env : Env) :
    (test_chromadb_connection env).2 = [Event.get chromadbURL 5] := by
  unfold test_chromadb_connection
  cases env chromadbURL 5 with
  | response code =>
      by_cases hc : code = 200
      · subst hc; simp
      · simp [hc]
  | netFailure e => simp

theorem milvus_requests (env : Env) :
    (test_milvus_connection env).2 = [Event.get milvusURL 5] := by
  unfold test_milvus_connection
  cases env milvusURL 5 with
  | response code =>
      by_cases hc : code = 200
      · subst hc; simp
      · simp [hc]
  | netFailure e => simp

theorem attu_requests (env : Env) :
    (test_milvus_attu env).2 = [Event.get attuURL 5] := by
  unfold test_milvus_attu
  cases env attuURL 5 with
  | response code =>
      by_cases hc : code = 200
      · subst hc; simp
      · simp [hc]
  | netFailure e => simp

theorem main_exit (env : Env) :
    (main env).2 =
      if ((test_chromadb_connection env).1.status == "success" &&
          (test_milvus_connection env).1.status == "success" &&
          (test_milvus_attu env).1.status == "success") then 0 else 1 := rfl

theorem chromadb_200 (env : Env)
    (h : env chromadbURL 5 = HttpOutcome.response 200) :
    (test_chromadb_connection env).1 =
      ⟨"success", "ChromaDB is running and accessible"⟩ := by
  simp [test_chromadb_connection, h]

theorem milvus_200 (env : Env)
    (h : env milvusURL 5 = HttpOutcome.response 200) :
    (test_milvus_connection env).1 =
      ⟨"success", "Milvus is running and accessible"⟩ := by
  simp [test_milvus_connection, h]

theorem attu_200 (env : Env)
    (h : env attuURL 5 = HttpOutcome.response 200) :
    (test_milvus_attu env).1 =
      ⟨"success", "Milvus Attu UI is accessible"⟩ := by
  simp [test_milvus_attu, h]

theorem chromadb_non200 (env : Env) (code : Nat) (hcode : code ≠ 200)
    (h : env chromadbURL 5 = HttpOutcome.response code) :
    (test_chromadb_connection env).1 =
      ⟨"error", "ChromaDB returned status " ++ toString code⟩ := by
  have hb : (code == 200) = false := by simpa using hcode
  simp [test_chromadb_connection, h, hb]

theorem milvus_non200 (env : Env) (code : Nat) (hcode : code ≠ 200)
    (h : env milvusURL 5 = HttpOutcome.response code) :
    (test_milvus_connection env).1 =
      ⟨"error", "Milvus returned status " ++ toString code⟩ := by
  have hb : (code == 200) = false := by simpa using hcode
  simp [test_milvus_connection, h, hb]

theorem attu_non200 (env : Env) (code : Nat) (hcode : code ≠ 200)
    (h : env attuURL 5 = HttpOutcome.response code) :
    (test_milvus_attu env).1 =
      ⟨"error", "Milvus Attu UI returned status " ++ toString code⟩ := by
  have hb : (code == 200) = false := by simpa using hcode
  simp [test_milvus_attu, h, hb]

theorem chromadb_netFailure (env : Env) (e : String)
    (h : env chromadbURL 5 = HttpOutcome.netFailure e) :
    (test_chromadb_connection env).1 =
      ⟨"error", "Failed to connect to ChromaDB: " ++ e⟩ := by
  simp [test_chromadb_connection, h]

theorem milvus_netFailure (env : Env) (e : String)
    (h : env milvusURL 5 = HttpOutcome.netFailure e) :
    (test_milvus_connection env).1 =
      ⟨"error", "Failed to connect to Milvus: " ++ e⟩ := by
  simp [test_milvus_connection, h]

theorem attu_netFailure (env : Env) (e : String)
    (h : env attuURL 5 = HttpOutcome.netFailure e) :
    (test_milvus_attu env).1 =
      ⟨"error", "Failed to connect to Milvus Attu UI: " ++ e⟩ := by
  simp [test_milvus_attu, h]

/- ## Claim theorems -/

/-- C1: the process exit code is 0 if and only if all three probes
(ChromaDB heartbeat, Milvus health, Milvus Attu UI) return status
`"success"`; otherwise — in particular whenever any probe's status is
`"error"` — the process terminates with exit code 1. -/
theorem exit_code_zero_iff_all_success (env : Env) :
    ((main env).2 = 0 ↔
      ((test_chromadb_connection env).1.status = "success" ∧
       (test_milvus_connection env).1.status = "success" ∧
       (test_milvus_attu env).1.status = "success")) ∧
    ((main env).2 = 1 ↔
      ¬((test_chromadb_connection env).1.status = "success" ∧
        (test_milvus_connection env).1.status = "success" ∧
        (test_milvus_attu env).1.status = "success")) := by
  rw [main_exit]
  by_cases h : ((test_chromadb_connection env).1.status == "success" &&
      (test_milvus_connection env).1.status == "success" &&
      (test_milvus_attu env).1.status == "success") = true
  · rw [if_pos h]
    simp only [Bool.and_eq_true, beq_iff_eq] at h
    obtain ⟨⟨h1, h2⟩, h3⟩ := h
    simp [h1, h2, h3]
  · rw [if_neg h]
    simp only [Bool.and_eq_true, beq_iff_eq] at h
    rw [and_assoc] at h
    simp [h]

/-- C2: for each of the three probe functions, a response with status
code 200 yields a result with status `"success"` and a message containing
the probed service's name. -/
theorem probe_200_success (env : Env) :
    (env chromadbURL 5 = HttpOutcome.response 200 →
      (test_chromadb_connection env).1.status = "success" ∧
      strContains (test_chromadb_connection env).1.message "ChromaDB") ∧
    (env milvusURL 5 = HttpOutcome.response 200 →
      (test_milvus_connection env).1.status = "success" ∧
      strContains (test_milvus_connection env).1.message "Milvus") ∧
    (env attuURL 5 = HttpOutcome.response 200 →
      (test_milvus_attu env).1.status = "success" ∧
      strContains (test_milvus_attu env).1.message "Milvus Attu UI") := by
  refine ⟨fun h => ?_, fun h => ?_, fun h => ?_⟩
  · rw [chromadb_200 env h]
    exact ⟨rfl, "", " is running and accessible", by decide⟩
  · rw [milvus_200 env h]
    exact ⟨rfl, "", " is running and accessible", by decide⟩
  · rw [attu_200 env h]
    exact ⟨rfl, "", " is accessible", by decide⟩

/-- C2 witness: in the environment answering 200 everywhere, each probe
reports success with the service name in the message. -/
theorem probe_200_success_witness :
    envAll200 chromadbURL 5 = HttpOutcome.response 200 ∧
    ((test_chromadb_connection envAll200).1.status = "success" ∧
      strContains (test_chromadb_connection envAll200).1.message "ChromaDB") ∧
    ((test_milvus_connection envAll200).1.status = "success" ∧
      strContains (test_milvus_connection envAll200).1.message "Milvus") ∧
    ((test_milvus_attu envAll200).1.status = "success" ∧
      strContains (test_milvus_attu envAll200).1.message "Milvus Attu UI") :=
  ⟨rfl, (probe_200_success envAll200).1 rfl,
    (probe_200_success envAll200).2.1 rfl,
    (probe_200_success envAll200).2.2 rfl⟩

/-- C3: for each of the three probe functions, a response with any status
code other than 200 yields a result with status `"error"` whose message
contains the decimal rendering of that status code. -/
theorem probe_non200_error (env : Env) (code : Nat) (hcode : code ≠ 200) :
    (env chromadbURL 5 = HttpOutcome.response code →
      (test_chromadb_connection env).1.status = "error" ∧
      strContains (test_chromadb_connection env).1.message (toString code)) ∧
    (env milvusURL 5 = HttpOutcome.response code →
      (test_milvus_connection env).1.status = "error" ∧
      strContains (test_milvus_connection env).1.message (toString code)) ∧
    (env attuURL 5 = HttpOutcome.response code →
      (test_milvus_attu env).1.status = "error" ∧
      strContains (test_milvus_attu env).1.message (toString code)) := by
  refine ⟨fun h => ?_, fun h => ?_, fun h => ?_⟩
  · rw [chromadb_non200 env code hcode h]
    exact ⟨rfl, strContains_append_self _ _⟩
  · rw [milvus_non200 env code hcode h]
    exact ⟨rfl, strContains_append_self _ _⟩
  · rw [attu_non200 env code hcode h]
    exact ⟨rfl, strContains_append_self _ _⟩

/-- C3 witness: in the environment answering 503 everywhere, each probe
reports an error whose message contains "503". -/
theorem probe_non200_error_witness :
    (503 : Nat) ≠ 200 ∧
    envAllCode 503 chromadbURL 5 = HttpOutcome.response 503 ∧
    ((test_chromadb_connection (envAllCode 503)).1.status = "error" ∧
      strContains (test_chromadb_connection (envAllCode 503)).1.message "503") ∧
    ((test_milvus_connection (envAllCode 503)).1.status = "error" ∧
      strContains (test_milvus_connection (envAllCode 503)).1.message "503") ∧
    ((test_milvus_attu (envAllCode 503)).1.status = "error" ∧
      strContains (test_milvus_attu (envAllCode 503)).1.message "503") :=
  ⟨by decide, rfl,
    (probe_non200_error (envAllCode 503) 503 (by decide)).1 rfl,
    (probe_non200_error (envAllCode 503) 503 (by decide)).2.1 rfl,
    (probe_non200_error (envAllCode 503) 503 (by decide)).2.2 rfl⟩

/-- C4: for each of the three probe functions, a network-level failure of
the GET is caught inside the probe and turned into a result with status
`"error"` and the message "Failed to connect to <service>: <detail>".
No exception propagates: in this embedding each probe is a total function
into `ProbeResult`, with no exceptional outcome. -/
theorem probe_netfailure_error (env : Env) (detail : String) :
    (env chromadbURL 5 = HttpOutcome.netFailure detail →
      (test_chromadb_connection env).1.status = "error" ∧
      (test_chromadb_connection env).1.message =
        "Failed to connect to ChromaDB: " ++ detail) ∧
    (env milvusURL 5 = HttpOutcome.netFailure detail →
      (test_milvus_connection env).1.status = "error" ∧
      (test_milvus_connection env).1.message =
        "Failed to connect to Milvus: " ++ detail) ∧
    (env attuURL 5 = HttpOutcome.netFailure detail →
      (test_milvus_attu env).1.status = "error" ∧
      (test_milvus_attu env).1.message =
        "Failed to connect to Milvus Attu UI: " ++ detail) := by
  refine ⟨fun h => ?_, fun h => ?_, fun h => ?_⟩
  · rw [chromadb_netFailure env detail h]; exact ⟨rfl, rfl⟩
  · rw [milvus_netFailure env detail h]; exact ⟨rfl, rfl⟩
  · rw [attu_netFailure env detail h]; exact ⟨rfl, rfl⟩

/-- C4 witness: when every request fails with detail "Connection refused",
each probe returns the corresponding error result. -/
theorem probe_netfailure_error_witness :
    envAllDown "Connection refused" chromadbURL 5 =
      HttpOutcome.netFailure "Connection refused" ∧
    ((test_chromadb_connection (envAllDown "Connection refused")).1.status = "error" ∧
      (test_chromadb_connection (envAllDown "Connection refused")).1.message =
        "Failed to connect to ChromaDB: " ++ "Connection refused") ∧
    ((test_milvus_connection (envAllDown "Connection refused")).1.status = "error" ∧
      (test_milvus_connection (envAllDown "Connection refused")).1.message =
        "Failed to connect to Milvus: " ++ "Connection refused") ∧
    ((test_milvus_attu (envAllDown "Connection refused")).1.status = "error" ∧
      (test_milvus_attu (envAllDown "Connection refused")).1.message =
        "Failed to connect to Milvus Attu UI: " ++ "Connection refused") :=
  ⟨rfl,
    (probe_netfailure_error (envAllDown "Connection refused") "Connection refused").1 rfl,
    (probe_netfailure_error (envAllDown "Connection refused") "Connection refused").2.1 rfl,
    (probe_netfailure_error (envAllDown "Connection refused") "Connection refused").2.2 rfl⟩

/-- C5: a probe's result has status `"success"` exactly when an HTTP
response was received within the timeout and had status code 200; every
result's status is `"success"` or `"error"`, so in every other case
(non-200 response or no response) the status is `"error"`. -/
theorem probe_success_iff_200 (env : Env) :
    ((test_chromadb_connection env).1.status = "success" ↔
      env chromadbURL 5 = HttpOutcome.response 200) ∧
    ((test_milvus_connection env).1.status = "success" ↔
      env milvusURL 5 = HttpOutcome.response 200) ∧
    ((test_milvus_attu env).1.status = "success" ↔
      env attuURL 5 = HttpOutcome.response 200) ∧
    ((test_chromadb_connection env).1.status = "success" ∨
      (test_chromadb_connection env).1.status = "error") ∧
    ((test_milvus_connection env).1.status = "success" ∨
      (test_milvus_connection env).1.status = "error") ∧
    ((test_milvus_attu env).1.status = "success" ∨
      (test_milvus_attu env).1.status = "error") :=
  ⟨chromadb_status_iff env, milvus_status_iff env, attu_status_iff env,
    chromadb_status_cases env, milvus_status_cases env, attu_status_cases env⟩

theorem chromadb_wellformed (env : Env) :
    ((test_chromadb_connection env).1.status = "success" ∨
      (test_chromadb_connection env).1.status = "error") ∧
    (test_chromadb_connection env).1.message ≠ "" ∧
    strContains (test_chromadb_connection env).1.message "ChromaDB" := by
  cases h : env chromadbURL 5 with
  | response code =>
      by_cases hc : code = 200
      · subst hc
        rw [chromadb_200 env h]
        exact ⟨Or.inl rfl, by decide, "", " is running and accessible", by decide⟩
      · rw [chromadb_non200 env code hc h]
        exact ⟨Or.inr rfl, append_ne_empty _ _ (by decide),
          strContains_append_left _ _ _ ⟨"", " returned status ", by decide⟩⟩
  | netFailure e =>
      rw [chromadb_netFailure env e h]
      exact ⟨Or.inr rfl, append_ne_empty _ _ (by decide),
        strContains_append_left _ _ _ ⟨"Failed to connect to ", ": ", by decide⟩⟩

theorem milvus_wellformed (env : Env) :
    ((test_milvus_connection env).1.status = "success" ∨
      (test_milvus_connection env).1.status = "error") ∧
    (test_milvus_connection env).1.message ≠ "" ∧
    strContains (test_milvus_connection env).1.message "Milvus" := by
  cases h : env milvusURL 5 with
  | response code =>
      by_cases hc : code = 200
      · subst hc
        rw [milvus_200 env h]
        exact ⟨Or.inl rfl, by decide, "", " is running and accessible", by decide⟩
      · rw [milvus_non200 env code hc h]
        exact ⟨Or.inr rfl, append_ne_empty _ _ (by decide),
          strContains_append_left _ _ _ ⟨"", " returned status ", by decide⟩⟩
  | netFailure e =>
      rw [milvus_netFailure env e h]
      exact ⟨Or.inr rfl, append_ne_empty _ _ (by decide),
        strContains_append_left _ _ _ ⟨"Failed to connect to ", ": ", by decide⟩⟩

theorem attu_wellformed (env : Env) :
    ((test_milvus_attu env).1.status = "success" ∨
      (test_milvus_attu env).1.status = "error") ∧
    (test_milvus_attu env).1.message ≠ "" ∧
    strContains (test_milvus_attu env).1.message "Milvus Attu UI" := by
  cases h : env attuURL 5 with
  | response code =>
      by_cases hc : code = 200
      · subst hc
        rw [attu_200 env h]
        exact ⟨Or.inl rfl, by decide, "", " is accessible", by decide⟩
      · rw [attu_non200 env code hc h]
        exact ⟨Or.inr rfl, append_ne_empty _ _ (by decide),
          strContains_append_left _ _ _ ⟨"", " returned status ", by decide⟩⟩
  | netFailure e =>
      rw [attu_netFailure env e h]
      exact ⟨Or.inr rfl, append_ne_empty _ _ (by decide),
        strContains_append_left _ _ _ ⟨"Failed to connect to ", ": ", by decide⟩⟩

/-- C6: when all three endpoints answer 200, `main` produces exactly the
success trace — header, separator, three probe sections each ending in a
✅ line, the separator again, the banner
"🎉 All database connections successful!" and the static
connection-reference text — and the process exits with code 0. -/
theorem main_all_200_output (env : Env)
    (hc : env chromadbURL 5 = HttpOutcome.response 200)
    (hm : env milvusURL 5 = HttpOutcome.response 200)
    (ha : env attuURL 5 = HttpOutcome.response 200) :
    (main env).1 =
      [.consolePrint "🔍 Testing Vex Extension Database Connections...",
       .consolePrint sepLine,
       .consolePrint "\n📊 Testing ChromaDB...",
       .get chromadbURL 5,
       .consolePrint "✅ ChromaDB is running and accessible",
       .consolePrint "\n📊 Testing Milvus...",
       .get milvusURL 5,
       .consolePrint "✅ Milvus is running and accessible",
       .consolePrint "\n📊 Testing Milvus Attu UI...",
       .get attuURL 5,
       .consolePrint "✅ Milvus Attu UI is accessible",
       .consolePrint ("\n" ++ sepLine),
       .consolePrint "🎉 All database connections successful!",
       .consolePrint "\n📋 Connection Details:",
       .consolePrint "   ChromaDB: http://localhost:8000",
       .consolePrint "   Milvus:   localhost:19530",
       .consolePrint "   Milvus UI: http://localhost:3000",
       .consolePrint "\n🚀 You can now test your Vex extension!"] ∧
    (main env).2 = 0 := by
  have hc1 := chromadb_200 env hc
  have hm1 := milvus_200 env hm
  have ha1 := attu_200 env ha
  constructor
  · simp [main, hc1, hm1, ha1, chromadb_requests, milvus_requests, attu_requests,
      glyphLine]
  · rw [main_exit, hc1, hm1, ha1]
    decide

/-- C6 witness: the all-200 environment realizes the success trace and
exit code 0. -/
theorem main_all_200_output_witness :
    envAll200 chromadbURL 5 = HttpOutcome.response 200 ∧
    envAll200 milvusURL 5 = HttpOutcome.response 200 ∧
    envAll200 attuURL 5 = HttpOutcome.response 200 ∧
    ((main envAll200).1 =
      [.consolePrint "🔍 Testing Vex Extension Database Connections...",
       .consolePrint sepLine,
       .consolePrint "\n📊 Testing ChromaDB...",
       .get chromadbURL 5,
       .consolePrint "✅ ChromaDB is running and accessible",
       .consolePrint "\n📊 Testing Milvus...",
       .get milvusURL 5,
       .consolePrint "✅ Milvus is running and accessible",
       .consolePrint "\n📊 Testing Milvus Attu UI...",
       .get attuURL 5,
       .consolePrint "✅ Milvus Attu UI is accessible",
       .consolePrint ("\n" ++ sepLine),
       .consolePrint "🎉 All database connections successful!",
       .consolePrint "\n📋 Connection Details:",
       .consolePrint "   ChromaDB: http://localhost:8000",
       .consolePrint "   Milvus:   localhost:19530",
       .consolePrint "   Milvus UI: http://localhost:3000",
       .consolePrint "\n🚀 You can now test your Vex extension!"] ∧
     (main envAll200).2 = 0) :=
  ⟨rfl, rfl, rfl, main_all_200_output envAll200 rfl rfl rfl⟩

/-- C7: in every environment — in particular when an earlier probe returns
an error — `main` produces exactly the interleaved trace: probe ChromaDB
(one GET), print its glyph result line, probe Milvus, print its result
line, probe Attu, print its result line, then print the summary (banner
plus static text when all three statuses are `"success"`, the warning line
otherwise), and the exit code aggregates the three statuses by logical AND
(0 when all succeed, otherwise 1). -/
theorem main_sequential (env : Env) :
    (main env).1 =
      [.consolePrint "🔍 Testing Vex Extension Database Connections...",
       .consolePrint sepLine,
       .consolePrint "\n📊 Testing ChromaDB...",
       .get chromadbURL 5,
       .consolePrint (glyphLine (test_chromadb_connection env).1),
       .consolePrint "\n📊 Testing Milvus...",
       .get milvusURL 5,
       .consolePrint (glyphLine (test_milvus_connection env).1),
       .consolePrint "\n📊 Testing Milvus Attu UI...",
       .get attuURL 5,
       .consolePrint (glyphLine (test_milvus_attu env).1),
       .consolePrint ("\n" ++ sepLine)] ++
      (if ((test_chromadb_connection env).1.status == "success" &&
           (test_milvus_connection env).1.status == "success" &&
           (test_milvus_attu env).1.status == "success") then
        [.consolePrint "🎉 All database connections successful!",
         .consolePrint "\n📋 Connection Details:",
         .consolePrint "   ChromaDB: http://localhost:8000",
         .consolePrint "   Milvus:   localhost:19530",
         .consolePrint "   Milvus UI: http://localhost:3000",
         .consolePrint "\n🚀 You can now test your Vex extension!"]
      else
        [.consolePrint "⚠️  Some connections failed. Please check your Docker setup."]) ∧
    (main env).2 =
      (if ((test_chromadb_connection env).1.status == "success" &&
           (test_milvus_connection env).1.status == "success" &&
           (test_milvus_attu env).1.status == "success") then 0 else 1) := by
  constructor
  · simp [main, chromadb_requests, milvus_requests, attu_requests]
  · exact main_exit env

/-- C8: each of the three probe functions issues exactly one GET request
per invocation, to its fixed hardcoded URL, with a fixed timeout of 5;
the request trace never has a second (retry) element. -/
theorem probe_single_request (env : Env) :
    (test_chromadb_connection env).2 = [Event.get chromadbURL 5] ∧
    (test_milvus_connection env).2 = [Event.get milvusURL 5] ∧
    (test_milvus_attu env).2 = [Event.get attuURL 5] :=
  ⟨chromadb_requests env, milvus_requests env, attu_requests env⟩

/-- C9: on every branch, each probe's result has a status that is exactly
`"success"` or `"error"`, and a non-empty message containing the probed
service's name. -/
theorem probe_result_wellformed (env : Env) :
    (((test_chromadb_connection env).1.status = "success" ∨
       (test_chromadb_connection env).1.status = "error") ∧
     (test_chromadb_connection env).1.message ≠ "" ∧
     strContains (test_chromadb_connection env).1.message "ChromaDB") ∧
    (((test_milvus_connection env).1.status = "success" ∨
       (test_milvus_connection env).1.status = "error") ∧
     (test_milvus_connection env).1.message ≠ "" ∧
     strContains (test_milvus_connection env).1.message "Milvus") ∧
    (((test_milvus_attu env).1.status = "success" ∨
       (test_milvus_attu env).1.status = "error") ∧
     (test_milvus_attu env).1.message ≠ "" ∧
     strContains (test_milvus_attu env).1.message "Milvus Attu UI") :=
  ⟨chromadb_wellformed env, milvus_wellformed env, attu_wellformed env⟩

/-- C10: the exit code depends only on the three probe statuses: two
environments whose probes agree on statuses yield equal exit codes, no
matter what the messages are. -/
theorem exit_code_independent_of_messages (env1 env2 : Env)
    (h1 : (test_chromadb_connection env1).1.status =
      (test_chromadb_connection env2).1.status)
    (h2 : (test_milvus_connection env1).1.status =
      (test_milvus_connection env2).1.status)
    (h3 : (test_milvus_attu env1).1.status =
      (test_milvus_attu env2).1.status) :
    (main env1).2 = (main env2).2 := by
  rw [main_exit, main_exit, h1, h2, h3]

/-- C10 witness: two all-down environments with different failure details
have pairwise equal statuses, different messages, and equal exit codes. -/
theorem exit_code_independent_of_messages_witness :
    (test_chromadb_connection (envAllDown "refused A")).1.status =
      (test_chromadb_connection (envAllDown "timeout B")).1.status ∧
    (test_milvus_connection (envAllDown "refused A")).1.status =
      (test_milvus_connection (envAllDown "timeout B")).1.status ∧
    (test_milvus_attu (envAllDown "refused A")).1.status =
      (test_milvus_attu (envAllDown "timeout B")).1.status ∧
    (test_chromadb_connection (envAllDown "refused A")).1.message ≠
      (test_chromadb_connection (envAllDown "timeout B")).1.message ∧
    (main (envAllDown "refused A")).2 = (main (envAllDown "timeout B")).2 :=
  ⟨rfl, rfl, rfl, by decide,
    exit_code_independent_of_messages (envAllDown "refused A")
      (envAllDown "timeout B") rfl rfl rfl⟩

end TestConnection
